import Mathlib

/-!
A shallow embedding of the RUDP (Reliable UDP) protocol engine from
rudp.c / rudp.h, together with theorems checking the specification
claims against it.

Modelling conventions:
* 32-bit unsigned sequence numbers are `Nat` values kept below `2 ^ 32`;
  every C `u_int32_t` arithmetic step is written with an explicit
  `% 4294967296`.
* The C `short` cast in the SEQ_ comparison macros is `toShort` below.
* Peer addresses (`struct sockaddr_in`) are abstracted to `Nat`; the
  `compare_sockaddr` equality of family, IPv4 address and port becomes
  `Nat` equality.
* Callback function pointers are abstracted to `Option Nat` tokens
  (`none` models a NULL pointer).
* Timer bookkeeping (`event_timeout` / `event_timeout_delete` argument
  pointers) is abstracted by tagging each armed timer with the sequence
  number of the packet it covers; this matches the source, which looks
  timers up by the covered packet seqno.
* Side effects (UDP transmissions, application upcalls, event-handler
  invocations, timer cancellations) are collected in a list of `Action`
  values in program order.
* Places where the C source dereferences a null pointer or reads an
  uninitialized variable are modelled by a distinguished result
  (`none` / `nullDeref` / `crash`), each marked with a comment.
-/

set_option maxRecDepth 100000

namespace Rudp

/-- RUDP_VERSION, from rudp.h. -/
def RUDP_VERSION : Nat := 1

/-- RUDP_MAXPKTSIZE, from rudp.h: data bytes per packet, header excluded. -/
def RUDP_MAXPKTSIZE : Nat := 1000

/-- RUDP_MAXRETRANS, from rudp.h: maximum number of retransmissions. -/
def RUDP_MAXRETRANS : Nat := 5

/-- RUDP_WINDOW, from rudp.h: maximum number of unacknowledged packets. -/
def RUDP_WINDOW : Nat := 3

/-- RUDP_DATA packet type, from rudp.h. -/
def RUDP_DATA : Nat := 1

/-- RUDP_ACK packet type, from rudp.h. -/
def RUDP_ACK : Nat := 2

/-- RUDP_SYN packet type, from rudp.h. -/
def RUDP_SYN : Nat := 4

/-- RUDP_FIN packet type, from rudp.h. -/
def RUDP_FIN : Nat := 5

/-- The modulus of C `u_int32_t` arithmetic, `2 ^ 32`. -/
def U32MOD : Nat := 4294967296

/-- C `u_int32_t` subtraction `a - b` (wraparound); operands are values
below `2 ^ 32`. -/
def u32sub (a b : Nat) : Nat := (a + U32MOD - b) % U32MOD

/-- The C cast `(short)` applied to a `u_int32_t` value, as used by the
SEQ_ macros in rudp.h: truncate to the low 16 bits and reinterpret as a
a twos-complement signed 16-bit value. -/
def toShort (n : Nat) : Int :=
  if n % 65536 < 32768 then ((n % 65536 : Nat) : Int)
  else ((n % 65536 : Nat) : Int) - 65536

/-- SEQ_LT(a,b) = ((short)((a)-(b)) < 0), from rudp.h. -/
def SEQ_LT (a b : Nat) : Bool := decide (toShort (u32sub a b) < 0)

/-- SEQ_LEQ(a,b) = ((short)((a)-(b)) <= 0), from rudp.h. -/
def SEQ_LEQ (a b : Nat) : Bool := decide (toShort (u32sub a b) ≤ 0)

/-- SEQ_GT(a,b) = ((short)((a)-(b)) > 0), from rudp.h. -/
def SEQ_GT (a b : Nat) : Bool := decide (0 < toShort (u32sub a b))

/-- SEQ_GEQ(a,b) = ((short)((a)-(b)) >= 0), from rudp.h. -/
def SEQ_GEQ (a b : Nat) : Bool := decide (0 ≤ toShort (u32sub a b))

/-- Truncation of an integer difference to a signed 16-bit value,
following the words of the spec: compute `d = (a - b) as i16`. -/
def truncI16 (z : Int) : Int :=
  if z % 65536 < 32768 then z % 65536 else z % 65536 - 65536

theorem toShort_u32sub (a b : Nat) (ha : a < U32MOD) (hb : b < U32MOD) :
    toShort (u32sub a b) = truncI16 ((a : Int) - b) := by
  have hble : b ≤ a + U32MOD := by unfold U32MOD at *; omega
  have hcast : ((u32sub a b % 65536 : Nat) : Int) = ((a : Int) - b) % 65536 := by
    unfold u32sub U32MOD at *
    obtain ⟨d, hd⟩ : ∃ d : Nat, a + 4294967296 - b = d := ⟨_, rfl⟩
    have hd2 : d + b = a + 4294967296 := by omega
    have hd3 : (d : Int) + b = (a : Int) + 4294967296 := by exact_mod_cast congrArg (Nat.cast (R := Int)) hd2
    rw [hd]
    rw [Int.natCast_mod, Int.natCast_mod]
    push_cast
    omega
  by_cases h : u32sub a b % 65536 < 32768
  · have h2 : ((a : Int) - b) % 65536 < 32768 := by
      rw [← hcast]; exact_mod_cast h
    rw [toShort, if_pos h, truncI16, if_pos h2, hcast]
  · have h2 : ¬ ((a : Int) - b) % 65536 < 32768 := by
      rw [← hcast]; exact_mod_cast h
    rw [toShort, if_neg h, truncI16, if_neg h2, hcast]

/-- C3: for all 32-bit unsigned `a`, `b`, `SEQ_LT(a,b)` holds iff the
difference `a - b` truncated to a signed 16-bit integer is negative, and
`SEQ_LEQ`, `SEQ_GT`, `SEQ_GEQ` apply `<=`, `>`, `>=` to that same
truncated signed 16-bit difference. -/
theorem seq_cmp_signed16_diff (a b : Nat) (ha : a < U32MOD) (hb : b < U32MOD) :
    (SEQ_LT a b = true ↔ truncI16 ((a : Int) - b) < 0) ∧
    (SEQ_LEQ a b = true ↔ truncI16 ((a : Int) - b) ≤ 0) ∧
    (SEQ_GT a b = true ↔ 0 < truncI16 ((a : Int) - b)) ∧
    (SEQ_GEQ a b = true ↔ 0 ≤ truncI16 ((a : Int) - b)) := by
  rw [SEQ_LT, SEQ_LEQ, SEQ_GT, SEQ_GEQ, toShort_u32sub a b ha hb]
  refine ⟨?_, ?_, ?_, ?_⟩ <;> exact decide_eq_true_iff

/-- Witness for C3 at the concrete input a = 1, b = 2. -/
theorem seq_cmp_signed16_diff_witness :
    (1 < U32MOD ∧ 2 < U32MOD) ∧
    (SEQ_LT 1 2 = true ↔ truncI16 ((1 : Int) - 2) < 0) :=
  ⟨⟨by decide, by decide⟩, (seq_cmp_signed16_diff 1 2 (by decide) (by decide)).1⟩

/-! Packets -/

/-- struct rudp_hdr, from rudp.h: version, type, seqno (u16, u16, u32). -/
structure RudpHdr where
  version : Nat
  type : Nat
  seqno : Nat
deriving DecidableEq

/-- struct rudp_packet, from rudp.c: header, payload_length (C int),
and the 1000-byte payload buffer.  The buffer is stored as the raw byte
list handed to `create_rudp_packet`; serialization pads it with the
zeroes that `memset` put there. -/
structure RudpPacket where
  header : RudpHdr
  payload_length : Int
  payload : List Nat
deriving DecidableEq

/-- create_rudp_packet, from rudp.c: version is always RUDP_VERSION, the
payload buffer is zeroed and then the first `len` bytes copied in. -/
def create_rudp_packet (t : Nat) (seqno : Nat) (len : Int) (payload : List Nat) : RudpPacket :=
  ⟨⟨RUDP_VERSION, t, seqno⟩, len, payload⟩

/-- The bare ACK packet `create_rudp_packet(RUDP_ACK, seqno, 0, NULL)`. -/
def ackPacket (seqno : Nat) : RudpPacket := create_rudp_packet RUDP_ACK seqno 0 []

/-- The bare SYN packet `create_rudp_packet(RUDP_SYN, seqno, 0, NULL)`. -/
def synPacket (seqno : Nat) : RudpPacket := create_rudp_packet RUDP_SYN seqno 0 []

/-- The bare FIN packet `create_rudp_packet(RUDP_FIN, seqno, 0, NULL)`. -/
def finPacket (seqno : Nat) : RudpPacket := create_rudp_packet RUDP_FIN seqno 0 []

/-! Wire encoding (claim C5)

`send_packet` transmits the in-memory struct verbatim:
`sendto(fd, p, sizeof(struct rudp_packet), ...)`.  The struct image is:
the packed 8-byte header, the 4-byte C `int payload_length`, then the
full 1000-byte payload buffer — 1012 bytes, in host byte order (the
source never calls htons/htonl on any field; little-endian is assumed
here, matching the usual host).  `receive_callback` symmetrically
copies the datagram back into a struct and takes the payload length
from the embedded field, ignoring the received datagram length. -/

/-- A u16 struct field in host (little-endian) byte order. -/
def u16Bytes (n : Nat) : List Nat := [n % 256, n / 256 % 256]

/-- A u32 struct field in host (little-endian) byte order. -/
def u32Bytes (n : Nat) : List Nat :=
  [n % 256, n / 256 % 256, n / 65536 % 256, n / 16777216 % 256]

/-- A C `int` struct field: twos complement, host byte order. -/
def i32Bytes (z : Int) : List Nat := u32Bytes ((z % 4294967296).toNat)

/-- The payload buffer as laid out in the struct: `memset` zeroes
followed by the copied bytes, 1000 bytes total. -/
def payloadBuffer (pl : List Nat) : List Nat :=
  pl.take RUDP_MAXPKTSIZE ++ List.replicate (RUDP_MAXPKTSIZE - pl.length) 0

/-- The UDP datagram `send_packet` hands to `sendto`: the whole
`struct rudp_packet`, `sizeof(struct rudp_packet)` bytes long. -/
def send_datagram (p : RudpPacket) : List Nat :=
  u16Bytes p.header.version ++ u16Bytes p.header.type ++ u32Bytes p.header.seqno ++
    i32Bytes p.payload_length ++ payloadBuffer p.payload

/-- Modelled from the spec (for comparison only): the datagram layout
claim C5 describes — the 8-byte header in network byte order followed
immediately by exactly the payload bytes. -/
def spec_datagram (p : RudpPacket) : List Nat :=
  [p.header.version / 256 % 256, p.header.version % 256,
   p.header.type / 256 % 256, p.header.type % 256,
   p.header.seqno / 16777216 % 256, p.header.seqno / 65536 % 256,
   p.header.seqno / 256 % 256, p.header.seqno % 256] ++ p.payload

/-- A C `int` read back from its four bytes in host byte order. -/
def i32FromBytes (b0 b1 b2 b3 : Nat) : Int :=
  let n := b0 + 256 * b1 + 65536 * b2 + 16777216 * b3
  if n < 2147483648 then (n : Int) else (n : Int) - 4294967296

/-- How the receiver recovers the payload length: `receive_callback`
copies the datagram into a `struct rudp_packet` and reads the
`payload_length` field at byte offset 8, ignoring the datagram length. -/
def decode_payload_length (d : List Nat) : Int :=
  i32FromBytes (d.getD 8 0) (d.getD 9 0) (d.getD 10 0) (d.getD 11 0)

/-- Counterexample to C5: the ACK packet with seqno 7 that the engine
transmits is a 1012-byte datagram, not the 8-byte header the claim
implies (payload length 0, so the claim says datagram length 8), and it
differs from the header-then-payload layout of the claim. -/
theorem c5_counterexample :
    (send_datagram (ackPacket 7)).length = 1012 ∧
    (send_datagram (ackPacket 7)).length ≠ 8 + (ackPacket 7).payload_length.toNat ∧
    send_datagram (ackPacket 7) ≠ spec_datagram (ackPacket 7) := by
  have hlen : (send_datagram (ackPacket 7)).length = 1012 := by
    simp [send_datagram, spec_datagram, payloadBuffer, ackPacket, create_rudp_packet,
      u16Bytes, u32Bytes, i32Bytes, RUDP_MAXPKTSIZE]
  refine ⟨hlen, by rw [hlen]; decide, ?_⟩
  intro h
  have h2 := congrArg List.length h
  rw [hlen] at h2
  simp [spec_datagram, ackPacket, create_rudp_packet] at h2

/-- C5 (amended): every datagram the engine transmits is the entire
fixed-size `struct rudp_packet`, 1012 bytes: the 8-byte header in host
byte order, the 4-byte `payload_length` field, then the full 1000-byte
payload buffer.  The receiver recovers the payload length from the
embedded field (bytes 8..11), not from the datagram length. -/
theorem i32_roundtrip (z : Int) (hlo : -2147483648 ≤ z) (hhi : z < 2147483648) :
    i32FromBytes ((z % 4294967296).toNat % 256) ((z % 4294967296).toNat / 256 % 256)
      ((z % 4294967296).toNat / 65536 % 256) ((z % 4294967296).toNat / 16777216 % 256) = z := by
  obtain ⟨m, hm⟩ : ∃ m : Nat, (z % 4294967296).toNat = m := ⟨_, rfl⟩
  have hm2 : (m : Int) = z % 4294967296 := by
    rw [← hm]
    exact Int.toNat_of_nonneg (Int.emod_nonneg _ (by norm_num))
  rw [hm, i32FromBytes]
  have hmlt : m < 4294967296 := by
    have := Int.emod_lt_of_pos z (show (0:Int) < 4294967296 by norm_num)
    omega
  have hdigits : m % 256 + 256 * (m / 256 % 256) + 65536 * (m / 65536 % 256) +
      16777216 * (m / 16777216 % 256) = m := by omega
  simp only [hdigits]
  split
  · rename_i hsmall
    omega
  · rename_i hbig
    omega

theorem send_datagram_struct_layout (p : RudpPacket)
    (hlen : p.payload.length ≤ RUDP_MAXPKTSIZE)
    (hlo : -2147483648 ≤ p.payload_length) (hhi : p.payload_length < 2147483648) :
    (send_datagram p).length = 1012 ∧
    send_datagram p =
      u16Bytes p.header.version ++ u16Bytes p.header.type ++ u32Bytes p.header.seqno ++
        i32Bytes p.payload_length ++ payloadBuffer p.payload ∧
    decode_payload_length (send_datagram p) = p.payload_length := by
  refine ⟨?_, rfl, ?_⟩
  · rw [send_datagram]
    rw [RUDP_MAXPKTSIZE] at hlen
    simp [u16Bytes, u32Bytes, i32Bytes, payloadBuffer, RUDP_MAXPKTSIZE]
    omega
  · have h8 : (send_datagram p).getD 8 0 = (p.payload_length % 4294967296).toNat % 256 := rfl
    have h9 : (send_datagram p).getD 9 0 =
        (p.payload_length % 4294967296).toNat / 256 % 256 := rfl
    have h10 : (send_datagram p).getD 10 0 =
        (p.payload_length % 4294967296).toNat / 65536 % 256 := rfl
    have h11 : (send_datagram p).getD 11 0 =
        (p.payload_length % 4294967296).toNat / 16777216 % 256 := rfl
    rw [decode_payload_length, h8, h9, h10, h11]
    exact i32_roundtrip p.payload_length hlo hhi

/-- Witness for the amended C5 at the concrete transmitted ACK packet
with seqno 7. -/
theorem send_datagram_struct_layout_witness :
    ((ackPacket 7).payload.length ≤ RUDP_MAXPKTSIZE ∧
      -2147483648 ≤ (ackPacket 7).payload_length ∧
      (ackPacket 7).payload_length < 2147483648) ∧
    decode_payload_length (send_datagram (ackPacket 7)) = (ackPacket 7).payload_length :=
  ⟨⟨by decide, by decide, by decide⟩,
    (send_datagram_struct_layout (ackPacket 7) (by decide) (by decide) (by decide)).2.2⟩

/-! Sessions -/

/-- rudp_state_t, from rudp.c. -/
inductive RudpState where
  | SYN_SENT
  | OPENING
  | OPEN
  | FIN_SENT
deriving DecidableEq

/-- A C array of RUDP_WINDOW = 3 elements (the sliding window and its
parallel retransmission-count and timeout-argument arrays). -/
structure Arr3 (α : Type) where
  i0 : α
  i1 : α
  i2 : α
deriving DecidableEq

/-- Read `a[n]` for `n` in 0..2 (the source only indexes in bounds). -/
def Arr3.get (a : Arr3 α) (n : Nat) : α :=
  match n with
  | 0 => a.i0
  | 1 => a.i1
  | _ => a.i2

/-- Write `a[n] := x` for `n` in 0..2. -/
def Arr3.set (a : Arr3 α) (n : Nat) (x : α) : Arr3 α :=
  match n with
  | 0 => { a with i0 := x }
  | 1 => { a with i1 := x }
  | _ => { a with i2 := x }

/-- An entry of the outgoing data queue (struct data): the copied item
bytes and their length. -/
structure DataItem where
  item : List Nat
  len : Int
deriving DecidableEq

/-- struct sender_session, from rudp.c.  Timer argument pointers are
abstracted to the seqno of the packet each timer covers. -/
structure SenderSession where
  status : RudpState
  seqno : Nat
  sliding_window : Arr3 (Option RudpPacket)
  retransmission_attempts : Arr3 Nat
  data_queue : List DataItem
  session_finished : Bool
  syn_timeout_arg : Option Nat
  fin_timeout_arg : Option Nat
  data_timeout_arg : Arr3 (Option Nat)
  syn_retransmit_attempts : Nat
  fin_retransmit_attempts : Nat
deriving DecidableEq

/-- struct receiver_session, from rudp.c. -/
structure ReceiverSession where
  status : RudpState
  expected_seqno : Nat
  session_finished : Bool
deriving DecidableEq

/-- struct session, from rudp.c: optional sender half, optional
receiver half, keyed by the peer address. -/
structure SessionEntry where
  address : Nat
  sender : Option SenderSession
  receiver : Option ReceiverSession
deriving DecidableEq

/-- The sender half built by create_sender_session, from rudp.c. -/
def create_sender_session (seqno : Nat) (queue : List DataItem) : SenderSession where
  status := RudpState.SYN_SENT
  seqno := seqno
  sliding_window := ⟨none, none, none⟩
  retransmission_attempts := ⟨0, 0, 0⟩
  data_queue := queue
  session_finished := false
  syn_timeout_arg := none
  fin_timeout_arg := none
  data_timeout_arg := ⟨none, none, none⟩
  syn_retransmit_attempts := 0
  fin_retransmit_attempts := 0

/-- Observable side effects of the engine, in program order. -/
inductive Action where
  /-- A datagram handed to send_packet / sendto. -/
  | SendPkt (p : RudpPacket)
  /-- The data-received callback invoked with payload bytes and length. -/
  | Deliver (payload : List Nat) (len : Int)
  /-- event_timeout_delete on the timer with the given argument token. -/
  | CancelTimer (arg : Option Nat)
  /-- The event handler invoked with RUDP_EVENT_TIMEOUT for the peer. -/
  | EmitTimeout (peer : Nat)
  /-- The event handler invoked with RUDP_EVENT_CLOSED. -/
  | EmitClosed
deriving DecidableEq

/-! Sender window helpers -/

/-- The first unused window slot, as computed by the descending
`for(i = RUDP_WINDOW-1; i >= 0; i--)` loop in rudp.c (it overwrites
`index` on every NULL slot, so it ends at the smallest one).  The loop
leaves `index` uninitialized when no slot is NULL; the callers below
only use it under the loop guard `sliding_window[RUDP_WINDOW-1] == NULL`,
which guarantees a NULL slot. -/
def firstFreeIdx (w : Arr3 (Option RudpPacket)) : Nat :=
  if w.i0 = none then 0 else if w.i1 = none then 1 else 2

/-- One pass of the window-refill `while` loop shared by the ACK-for-SYN
drain (rudp.c:400-429) and the ACK-for-DATA refill (rudp.c:464-491):
while the queue is non-empty and `sliding_window[RUDP_WINDOW-1]` is
NULL, assign the next seqno, build a DATA packet, place it in the first
unused slot, zero the retry counter of that slot, pop the queue and
send the packet (send_packet also arms the timer of that slot). -/
def refill_go (ss : SenderSession) : List DataItem → SenderSession × List Action
  | [] => (ss, [])
  | d :: rest =>
    if (ss.sliding_window.i2).isSome then (ss, [])
    else
      let seqno := (ss.seqno + 1) % U32MOD
      let datap := create_rudp_packet RUDP_DATA seqno d.len d.item
      let idx := firstFreeIdx ss.sliding_window
      let ss1 : SenderSession :=
        { ss with
          seqno := seqno
          sliding_window := ss.sliding_window.set idx (some datap)
          retransmission_attempts := ss.retransmission_attempts.set idx 0
          data_timeout_arg := ss.data_timeout_arg.set idx (some seqno)
          data_queue := rest }
      let r := refill_go ss1 rest
      (r.1, Action.SendPkt datap :: r.2)

/-- The window refill entry point: drain `ss.data_queue`. -/
def refill (ss : SenderSession) : SenderSession × List Action :=
  refill_go ss ss.data_queue

/-- The window shift on a correct ACK (rudp.c:444-462, RUDP_WINDOW = 3):
slots, retry counters and timer arguments all move left one place and
the last slot is cleared. -/
def shift_window (ss : SenderSession) : SenderSession :=
  { ss with
    sliding_window := ⟨ss.sliding_window.i1, ss.sliding_window.i2, none⟩
    retransmission_attempts :=
      ⟨ss.retransmission_attempts.i1, ss.retransmission_attempts.i2, 0⟩
    data_timeout_arg := ⟨ss.data_timeout_arg.i1, ss.data_timeout_arg.i2, none⟩ }

/-- The guard on an ACK arriving for a sender in state OPEN
(rudp.c:434-435): slot 0 is occupied and its seqno equals the ACK
seqno minus one (u32 arithmetic). -/
def ack_open_guard (ss : SenderSession) (ack : Nat) : Bool :=
  match ss.sliding_window.i0 with
  | none => false
  | some p0 => decide (p0.header.seqno = u32sub ack 1)

/-- Handling of an ACK for a sender in state OPEN (rudp.c:432-491): if
the guard holds, cancel the slot-0 timer, shift the window left and
refill from the queue; otherwise do nothing. -/
def handle_ack_open (ss : SenderSession) (ack : Nat) : SenderSession × List Action :=
  if ack_open_guard ss ack then
    let r := refill (shift_window ss)
    (r.1, Action.CancelTimer ss.data_timeout_arg.i0 :: r.2)
  else (ss, [])

/-! Receiver half -/

/-- Handling of a DATA packet for an existing receiver half
(rudp.c:559-588).  `has_recv_handler` is whether the recv_handler of
the socket is non-NULL. -/
def handle_data (rs : ReceiverSession) (seqno : Nat) (payload : List Nat)
    (payload_length : Int) (has_recv_handler : Bool) : ReceiverSession × List Action :=
  let rs1 := if rs.status = RudpState.OPENING ∧ seqno = rs.expected_seqno then
    { rs with status := RudpState.OPEN } else rs
  if seqno = rs1.expected_seqno then
    let ackno := (seqno + 1) % U32MOD
    ({ rs1 with expected_seqno := ackno },
      Action.SendPkt (ackPacket ackno) ::
        (if has_recv_handler then [Action.Deliver payload payload_length] else []))
  else if SEQ_GEQ seqno (u32sub rs1.expected_seqno RUDP_WINDOW) &&
      SEQ_LT seqno rs1.expected_seqno then
    (rs1, [Action.SendPkt (ackPacket ((seqno + 1) % U32MOD))])
  else
    (rs1, [])

/-- Handling of a FIN packet for an existing receiver half
(rudp.c:590-599), without the socket-close sweep that follows it. -/
def handle_fin (rs : ReceiverSession) (seqno : Nat) : ReceiverSession × List Action :=
  if rs.status = RudpState.OPEN then
    if seqno = rs.expected_seqno then
      ({ rs with session_finished := true },
        [Action.SendPkt (ackPacket ((rs.expected_seqno + 1) % U32MOD))])
    else (rs, [])
  else (rs, [])

/-! Claims C1 and C7 (receiver half) -/

theorem seq_lt_self (s : Nat) : SEQ_LT s s = false := by
  have h : u32sub s s = 0 := by unfold u32sub U32MOD; omega
  rw [SEQ_LT, h]
  decide

/-- C1: a receiver half in state OPEN handed a DATA packet whose seqno
lies in the retrospective window `[expected - WINDOW, expected)` under
the 16-bit modular comparators sends exactly one ACK carrying seqno
`s + 1` and does not invoke the data-received callback; the receiver
state is unchanged, so the payload is not delivered again. -/
theorem receiver_dedup_window (rs : ReceiverSession) (seqno : Nat) (payload : List Nat)
    (plen : Int) (hrecv : Bool)
    (hst : rs.status = RudpState.OPEN)
    (hw : (SEQ_GEQ seqno (u32sub rs.expected_seqno RUDP_WINDOW) &&
      SEQ_LT seqno rs.expected_seqno) = true) :
    handle_data rs seqno payload plen hrecv =
      (rs, [Action.SendPkt (ackPacket ((seqno + 1) % U32MOD))]) := by
  have hne : seqno ≠ rs.expected_seqno := by
    intro he
    simp only [Bool.and_eq_true] at hw
    obtain ⟨-, h2⟩ := hw
    rw [he, seq_lt_self] at h2
    exact Bool.false_ne_true h2
  simp [handle_data, hst, hne, hw]

/-- Witness for C1 at the concrete receiver with expected_seqno 10 and
an in-window duplicate DATA with seqno 8. -/
theorem receiver_dedup_window_witness :
    (⟨RudpState.OPEN, 10, false⟩ : ReceiverSession).status = RudpState.OPEN ∧
    (SEQ_GEQ 8 (u32sub (10 : Nat) RUDP_WINDOW) && SEQ_LT 8 (10 : Nat)) = true ∧
    handle_data ⟨RudpState.OPEN, 10, false⟩ 8 [1, 2] 2 true =
      (⟨RudpState.OPEN, 10, false⟩, [Action.SendPkt (ackPacket 9)]) :=
  ⟨rfl, by decide, receiver_dedup_window ⟨RudpState.OPEN, 10, false⟩ 8 [1, 2] 2 true rfl
    (by decide)⟩

/-- Counterexample to C7: a receiver half in state OPEN with
expected_seqno 5 that accepts FIN(5) sends ACK(6) and marks the session
finished but leaves expected_seqno at 5 — it does not advance it by 1
as the claim states. -/
theorem c7_counterexample :
    handle_fin ⟨RudpState.OPEN, 5, false⟩ 5 =
      (⟨RudpState.OPEN, 5, true⟩, [Action.SendPkt (ackPacket 6)]) ∧
    (handle_fin ⟨RudpState.OPEN, 5, false⟩ 5).1.expected_seqno ≠ 5 + 1 := by
  constructor
  · rw [handle_fin]
    decide
  · rw [handle_fin]
    decide

/-- C7 (amended): a receiver half in state OPEN handed FIN with seqno
equal to expected_seqno sends exactly one ACK with seqno
`expected_seqno + 1` and marks the receiver finished, leaving
expected_seqno unchanged; a FIN with any other seqno is ignored. -/
theorem handle_fin_spec (rs : ReceiverSession) (seqno : Nat)
    (hst : rs.status = RudpState.OPEN) :
    (seqno = rs.expected_seqno →
      handle_fin rs seqno =
        ({ rs with session_finished := true },
          [Action.SendPkt (ackPacket ((rs.expected_seqno + 1) % U32MOD))])) ∧
    (seqno ≠ rs.expected_seqno → handle_fin rs seqno = (rs, [])) := by
  constructor <;> intro h <;> simp [handle_fin, hst, h]

/-- Witness for the amended C7 at the concrete receiver with
expected_seqno 5 and FIN seqno 5. -/
theorem handle_fin_spec_witness :
    (⟨RudpState.OPEN, 5, false⟩ : ReceiverSession).status = RudpState.OPEN ∧
    (5 : Nat) = (⟨RudpState.OPEN, 5, false⟩ : ReceiverSession).expected_seqno ∧
    handle_fin ⟨RudpState.OPEN, 5, false⟩ 5 =
      (⟨RudpState.OPEN, 5, true⟩, [Action.SendPkt (ackPacket ((5 + 1) % U32MOD))]) :=
  ⟨rfl, rfl, (handle_fin_spec ⟨RudpState.OPEN, 5, false⟩ 5 rfl).1 rfl⟩

/-! Claims C2 and C6 (sender window) -/

theorem ack_guard_iff (p0seq ack : Nat) (hp : p0seq < U32MOD) (ha : ack < U32MOD) :
    p0seq = u32sub ack 1 ↔ ack = (p0seq + 1) % U32MOD := by
  unfold u32sub U32MOD at *
  constructor <;> intro h <;> omega

/-- C2: for a sender half in state OPEN with a non-empty window, an
incoming ACK cancels the slot-0 timer, shifts the window left by one and
refills from the queue exactly when the ACK seqno equals
`window[0].seqno + 1` (u32 arithmetic); any other ACK leaves the whole
sender state — window, retry counters and timers — unchanged and has
no side effects. -/
theorem sender_ack_head_of_window (ss : SenderSession) (p0 : RudpPacket) (ack : Nat)
    (h0 : ss.sliding_window.i0 = some p0)
    (hp : p0.header.seqno < U32MOD) (ha : ack < U32MOD) :
    (ack = (p0.header.seqno + 1) % U32MOD →
      handle_ack_open ss ack =
        ((refill (shift_window ss)).1,
          Action.CancelTimer ss.data_timeout_arg.i0 :: (refill (shift_window ss)).2)) ∧
    (ack ≠ (p0.header.seqno + 1) % U32MOD → handle_ack_open ss ack = (ss, [])) := by
  have hg : ack_open_guard ss ack = true ↔ ack = (p0.header.seqno + 1) % U32MOD := by
    rw [ack_open_guard, h0]
    simp only [decide_eq_true_iff]
    exact ack_guard_iff _ _ hp ha
  constructor <;> intro h
  · rw [handle_ack_open, if_pos (hg.mpr h)]
  · rw [handle_ack_open, if_neg (fun hgt => h (hg.mp hgt))]

/-- A concrete OPEN sender state used by witnesses: one in-flight DATA
packet with seqno 100 in slot 0 and two queued items. -/
def senderWitnessState : SenderSession where
  status := RudpState.OPEN
  seqno := 100
  sliding_window := ⟨some (create_rudp_packet RUDP_DATA 100 1 [5]), none, none⟩
  retransmission_attempts := ⟨1, 0, 0⟩
  data_queue := [⟨[9], 1⟩, ⟨[7, 8], 2⟩]
  session_finished := false
  syn_timeout_arg := none
  fin_timeout_arg := none
  data_timeout_arg := ⟨some 100, none, none⟩
  syn_retransmit_attempts := 0
  fin_retransmit_attempts := 0

/-- Witness for C2 at a concrete one-packet window with seqno 100 and
the advancing ACK 101. -/
theorem sender_ack_head_of_window_witness :
    ((senderWitnessState.sliding_window.i0 =
        some (create_rudp_packet RUDP_DATA 100 1 [5])) ∧
      (create_rudp_packet RUDP_DATA 100 1 [5]).header.seqno < U32MOD ∧
      (101 : Nat) < U32MOD ∧ (101 : Nat) = (100 + 1) % U32MOD) ∧
    handle_ack_open senderWitnessState 101 =
      ((refill (shift_window senderWitnessState)).1,
        Action.CancelTimer senderWitnessState.data_timeout_arg.i0 ::
          (refill (shift_window senderWitnessState)).2) :=
  ⟨⟨rfl, by decide, by decide, by decide⟩,
    (sender_ack_head_of_window senderWitnessState (create_rudp_packet RUDP_DATA 100 1 [5])
      101 rfl (by decide) (by decide)).1 (by decide)⟩

/-- The left-packed window predicate of claim C6: there is no index `i`
with `window[i]` empty and `window[i+1]` occupied, written out for the
three slots. -/
def left_packed (w : Arr3 (Option RudpPacket)) : Prop :=
  (w.i0 = none → w.i1 = none) ∧ (w.i1 = none → w.i2 = none)

theorem set_firstFree_left_packed (w : Arr3 (Option RudpPacket)) (p : RudpPacket)
    (h : left_packed w) : left_packed (w.set (firstFreeIdx w) (some p)) := by
  obtain ⟨h1, h2⟩ := h
  rw [firstFreeIdx]
  by_cases h0 : w.i0 = none
  · simpa [h0, Arr3.set, left_packed] using h2
  · by_cases hh1 : w.i1 = none
    · simp [h0, hh1, Arr3.set, left_packed]
    · simp [h0, hh1, Arr3.set, left_packed]

theorem refill_go_left_packed (q : List DataItem) :
    ∀ ss : SenderSession, left_packed ss.sliding_window →
      left_packed ((refill_go ss q).1).sliding_window := by
  induction q with
  | nil => intro ss h; exact h
  | cons d rest ih =>
    intro ss h
    rw [refill_go]
    cases hfull : (ss.sliding_window.i2).isSome
    · rw [if_neg Bool.false_ne_true]
      exact ih _ (set_firstFree_left_packed _ _ h)
    · rw [if_pos rfl]
      exact h

/-- C6: after a sender half in state OPEN processes an ACK (the window
shift followed by the greedy refill from the outbound queue), the
sliding window is still left-packed: no empty slot is followed by an
occupied one. -/
theorem sender_window_stays_left_packed (ss : SenderSession) (ack : Nat)
    (h : left_packed ss.sliding_window) :
    left_packed ((handle_ack_open ss ack).1.sliding_window) := by
  rw [handle_ack_open]
  by_cases hg : ack_open_guard ss ack = true
  · rw [if_pos hg]
    show left_packed ((refill (shift_window ss)).1.sliding_window)
    rw [refill]
    exact refill_go_left_packed _ _ ⟨h.2, fun _ => rfl⟩
  · rw [if_neg hg]
    exact h

/-- Witness for C6 at a concrete sender state whose window holds one
packet and whose queue holds two more items. -/
theorem sender_window_stays_left_packed_witness :
    left_packed senderWitnessState.sliding_window ∧
    left_packed ((handle_ack_open senderWitnessState 101).1.sliding_window) :=
  ⟨⟨fun h => absurd h (by decide), fun _ => rfl⟩,
    sender_window_stays_left_packed senderWitnessState 101
      ⟨fun h => absurd h (by decide), fun _ => rfl⟩⟩

/-! Claim C8 (timeout callback) -/

/-- Whether a window slot holds a packet with the given seqno. -/
def slotMatches (s : Option RudpPacket) (seqno : Nat) : Bool :=
  match s with
  | some p => decide (p.header.seqno = seqno)
  | none => false

/-- The window slot whose packet seqno matches, as computed by the
ascending lookup loop in timeout_callback (rudp.c:897-902): the loop
overwrites `index` on every match, so it ends at the last matching
slot.  `none` models the case where no slot matches, in which the
source goes on to read the uninitialized `index` variable. -/
def lastMatchIdx (w : Arr3 (Option RudpPacket)) (seqno : Nat) : Option Nat :=
  if slotMatches w.i2 seqno then some 2
  else if slotMatches w.i1 seqno then some 1
  else if slotMatches w.i0 seqno then some 0
  else none

/-- timeout_callback for a found session, from rudp.c:873-912.
`has_event_handler` is whether the event handler of the socket is
non-NULL;
the source invokes it without a NULL check on the ceiling paths, so
`none` models the null-pointer call when it is absent. -/
def timeout_step (ss : SenderSession) (has_event_handler : Bool) (peer : Nat)
    (pkt : RudpPacket) : Option (SenderSession × List Action) :=
  if pkt.header.type = RUDP_SYN then
    if RUDP_MAXRETRANS ≤ ss.syn_retransmit_attempts then
      if has_event_handler then some (ss, [Action.EmitTimeout peer]) else none
    else
      some ({ ss with
          syn_retransmit_attempts := ss.syn_retransmit_attempts + 1
          syn_timeout_arg := some pkt.header.seqno },
        [Action.SendPkt pkt])
  else if pkt.header.type = RUDP_FIN then
    if RUDP_MAXRETRANS ≤ ss.fin_retransmit_attempts then
      if has_event_handler then some (ss, [Action.EmitTimeout peer]) else none
    else
      some ({ ss with
          fin_retransmit_attempts := ss.fin_retransmit_attempts + 1
          fin_timeout_arg := some pkt.header.seqno },
        [Action.SendPkt pkt])
  else
    match lastMatchIdx ss.sliding_window pkt.header.seqno with
    | none => none
    | some i =>
      if RUDP_MAXRETRANS ≤ ss.retransmission_attempts.get i then
        if has_event_handler then some (ss, [Action.EmitTimeout peer]) else none
      else
        some ({ ss with
            retransmission_attempts :=
              ss.retransmission_attempts.set i (ss.retransmission_attempts.get i + 1)
            data_timeout_arg := ss.data_timeout_arg.set i (some pkt.header.seqno) },
          [Action.SendPkt pkt])

/-- C8: when a retransmission timer fires for a SYN, a FIN, or a DATA
window slot and the matching retry counter has reached RUDP_MAXRETRANS,
the engine emits a TIMEOUT event naming the peer, does not retransmit,
and leaves the session state untouched; when the counter is below the
ceiling it increments that counter by one and retransmits the same
packet. -/
theorem timeout_retry_ceiling (ss : SenderSession) (peer : Nat) (pkt : RudpPacket) :
    (pkt.header.type = RUDP_SYN →
      (RUDP_MAXRETRANS ≤ ss.syn_retransmit_attempts →
        timeout_step ss true peer pkt = some (ss, [Action.EmitTimeout peer])) ∧
      (ss.syn_retransmit_attempts < RUDP_MAXRETRANS →
        timeout_step ss true peer pkt =
          some ({ ss with
              syn_retransmit_attempts := ss.syn_retransmit_attempts + 1
              syn_timeout_arg := some pkt.header.seqno },
            [Action.SendPkt pkt]))) ∧
    (pkt.header.type = RUDP_FIN →
      (RUDP_MAXRETRANS ≤ ss.fin_retransmit_attempts →
        timeout_step ss true peer pkt = some (ss, [Action.EmitTimeout peer])) ∧
      (ss.fin_retransmit_attempts < RUDP_MAXRETRANS →
        timeout_step ss true peer pkt =
          some ({ ss with
              fin_retransmit_attempts := ss.fin_retransmit_attempts + 1
              fin_timeout_arg := some pkt.header.seqno },
            [Action.SendPkt pkt]))) ∧
    (∀ i, pkt.header.type ≠ RUDP_SYN → pkt.header.type ≠ RUDP_FIN →
      lastMatchIdx ss.sliding_window pkt.header.seqno = some i →
      (RUDP_MAXRETRANS ≤ ss.retransmission_attempts.get i →
        timeout_step ss true peer pkt = some (ss, [Action.EmitTimeout peer])) ∧
      (ss.retransmission_attempts.get i < RUDP_MAXRETRANS →
        timeout_step ss true peer pkt =
          some ({ ss with
              retransmission_attempts :=
                ss.retransmission_attempts.set i (ss.retransmission_attempts.get i + 1)
              data_timeout_arg := ss.data_timeout_arg.set i (some pkt.header.seqno) },
            [Action.SendPkt pkt]))) := by
  refine ⟨fun ht => ⟨fun hc => ?_, fun hc => ?_⟩,
    fun ht => ⟨fun hc => ?_, fun hc => ?_⟩,
    fun i ht1 ht2 hm => ⟨fun hc => ?_, fun hc => ?_⟩⟩
  · simp [timeout_step, ht, hc]
  · simp [timeout_step, ht, Nat.not_le.mpr hc]
  · simp [timeout_step, RUDP_SYN, RUDP_FIN, ht, hc]
  · simp [timeout_step, RUDP_SYN, RUDP_FIN, ht, Nat.not_le.mpr hc]
  · simp [timeout_step, ht1, ht2, hm, hc]
  · simp [timeout_step, ht1, ht2, hm, Nat.not_le.mpr hc]

/-- A concrete sender state at the SYN retry ceiling, for the C8
witness. -/
def timeoutWitnessState : SenderSession :=
  { create_sender_session 42 [] with syn_retransmit_attempts := 5 }

/-- Witness for C8: at the SYN retry ceiling the engine emits TIMEOUT
to peer 77 and leaves the session unchanged. -/
theorem timeout_retry_ceiling_witness :
    (synPacket 42).header.type = RUDP_SYN ∧
    RUDP_MAXRETRANS ≤ timeoutWitnessState.syn_retransmit_attempts ∧
    timeout_step timeoutWitnessState true 77 (synPacket 42) =
      some (timeoutWitnessState, [Action.EmitTimeout 77]) :=
  ⟨rfl, by decide,
    ((timeout_retry_ceiling timeoutWitnessState 77 (synPacket 42)).1 rfl).1 (by decide)⟩

/-! Socket-level dispatch (claim C4) -/

/-- struct rudp_socket_list, from rudp.c.  The two callback function
pointers are abstracted to `Option Nat` tokens (`none` = NULL). -/
structure SocketEntry where
  rsock : Int
  close_requested : Bool
  recv_handler : Option Nat
  handler : Option Nat
  sessions : List SessionEntry
deriving DecidableEq

/-- The session-list walk of receive_callback (rudp.c:335-348): the
first session whose address equals the sender address, with its
position. -/
def findSession : List SessionEntry → Nat → Option (Nat × SessionEntry)
  | [], _ => none
  | s :: rest, a =>
    if s.address = a then some (0, s)
    else (findSession rest a).map (fun r => (r.1 + 1, r.2))

/-- The close-requested sweep after an accepted DATA ACK
(rudp.c:492-509): every session whose sender is unfinished with an
empty queue, an empty window and state OPEN gets `seqno + 1`, a FIN
sent, and moves to FIN_SENT (send_packet arms the FIN timer).  `none`
models the null dereference at rudp.c:496 when a session has no sender
half. -/
def fin_sweep : List SessionEntry → Option (List SessionEntry × List Action)
  | [] => some ([], [])
  | sess :: rest =>
    match sess.sender with
    | none => none
    | some snd =>
      let step : SessionEntry × List Action :=
        if snd.session_finished = false ∧ snd.data_queue = [] ∧
            snd.sliding_window.i0 = none ∧ snd.status = RudpState.OPEN then
          let sq := (snd.seqno + 1) % U32MOD
          ({ sess with sender := some { snd with
              seqno := sq
              status := RudpState.FIN_SENT
              fin_timeout_arg := some sq } },
            [Action.SendPkt (finPacket sq)])
        else (sess, [])
      match fin_sweep rest with
      | none => none
      | some r => some (step.1 :: r.1, step.2 ++ r.2)

/-- The all-sessions-finished check of the close-requested sweeps
(rudp.c:524-543 and 602-621): a session counts as done when its sender
is finished and its receiver, if present, is finished.  `none` models
the null dereference when a session has no sender half.  (The source
frees every session node during this walk and leaves the list head
dangling; the callers below model that by emptying the session list.) -/
def all_done_sweep : List SessionEntry → Option Bool
  | [] => some true
  | sess :: rest =>
    match sess.sender with
    | none => none
    | some snd =>
      let this_ok : Bool :=
        if snd.session_finished = false then false
        else match sess.receiver with
          | some r => if r.session_finished = false then false else true
          | none => true
      match all_done_sweep rest with
      | none => none
      | some b => some (this_ok && b)

/-- Result of processing one incoming datagram on a socket. -/
inductive RecvResult where
  /-- Updated socket state and the side effects, in order. -/
  | ok (sock : SocketEntry) (acts : List Action)
  /-- The socket delivered CLOSED and was torn down. -/
  | closed (acts : List Action)
  /-- The source dereferences a null pointer on this path. -/
  | crash
deriving DecidableEq

/-- receive_callback for a located socket (rudp.c:271-644): decode the
datagram as a packet struct and route on the type field.  The decode
step performs no size check and never reads the version field; the
incoming packet is destructured once at the top, exactly as the source
copies out `rudpheader`. -/
def receive_step (sock : SocketEntry) (from_addr : Nat) (pkt : RudpPacket) : RecvResult :=
  match pkt with
  | ⟨⟨_, t, s⟩, plen, pl⟩ =>
    match findSession sock.sessions from_addr with
    | none =>
      /- No session for this peer (rudp.c:317-331, 349-362): only a SYN
      creates a receiver session and is ACKed; anything else is
      ignored. -/
      if t = RUDP_SYN then
        let expected := (s + 1) % U32MOD
        RecvResult.ok
          { sock with sessions := sock.sessions ++
              [⟨from_addr, none, some ⟨RudpState.OPENING, expected, false⟩⟩] }
          [Action.SendPkt (ackPacket expected)]
      else RecvResult.ok sock []
    | some (k, sess) =>
      if t = RUDP_SYN then
        /- rudp.c:365-386 -/
        match sess.receiver with
        | none =>
          let expected := (s + 1) % U32MOD
          let sess1 := { sess with receiver := some ⟨RudpState.OPENING, expected, false⟩ }
          RecvResult.ok { sock with sessions := sock.sessions.set k sess1 }
            [Action.SendPkt (ackPacket expected)]
        | some r =>
          if r.status = RudpState.OPENING then
            let expected := (s + 1) % U32MOD
            let sess1 := { sess with receiver := some ⟨RudpState.OPENING, expected, false⟩ }
            RecvResult.ok { sock with sessions := sock.sessions.set k sess1 }
              [Action.SendPkt (ackPacket expected)]
          else RecvResult.ok sock []
      else if t = RUDP_ACK then
        match sess.sender with
        | none => RecvResult.crash  /- rudp.c:389 dereferences a NULL sender -/
        | some snd =>
          if snd.status = RudpState.SYN_SENT then
            /- ACK for SYN (rudp.c:389-431) -/
            if u32sub s 1 = snd.seqno then
              let r := refill { snd with status := RudpState.OPEN }
              RecvResult.ok
                { sock with sessions := sock.sessions.set k { sess with sender := some r.1 } }
                (Action.CancelTimer snd.syn_timeout_arg :: r.2)
            else RecvResult.ok sock []
          else if snd.status = RudpState.OPEN then
            /- ACK for DATA (rudp.c:432-511) -/
            let r := handle_ack_open snd s
            let sock1 :=
              { sock with sessions := sock.sessions.set k { sess with sender := some r.1 } }
            if ack_open_guard snd s && sock.close_requested then
              match fin_sweep sock1.sessions with
              | none => RecvResult.crash
              | some fs => RecvResult.ok { sock1 with sessions := fs.1 } (r.2 ++ fs.2)
            else RecvResult.ok sock1 r.2
          else if snd.status = RudpState.FIN_SENT then
            /- ACK for FIN (rudp.c:513-557) -/
            if (snd.seqno + 1) % U32MOD = s then
              let snd1 := { snd with session_finished := true }
              let sock1 :=
                { sock with sessions := sock.sessions.set k { sess with sender := some snd1 } }
              if sock.close_requested then
                match all_done_sweep sock1.sessions with
                | none => RecvResult.crash
                | some all_done =>
                  if all_done && sock.handler.isSome then
                    RecvResult.closed [Action.CancelTimer snd.fin_timeout_arg, Action.EmitClosed]
                  else RecvResult.ok { sock1 with sessions := [] }
                    [Action.CancelTimer snd.fin_timeout_arg]
              else RecvResult.ok sock1 [Action.CancelTimer snd.fin_timeout_arg]
            else RecvResult.ok sock []
          else RecvResult.ok sock []
      else if t = RUDP_DATA then
        match sess.receiver with
        | none => RecvResult.crash  /- rudp.c:561 dereferences a NULL receiver -/
        | some r =>
          let hres := handle_data r s pl plen sock.recv_handler.isSome
          RecvResult.ok
            { sock with sessions := sock.sessions.set k { sess with receiver := some hres.1 } }
            hres.2
      else if t = RUDP_FIN then
        match sess.receiver with
        | none => RecvResult.crash  /- rudp.c:591 dereferences a NULL receiver -/
        | some r =>
          let hres := handle_fin r s
          let sock1 :=
            { sock with sessions := sock.sessions.set k { sess with receiver := some hres.1 } }
          if r.status = RudpState.OPEN ∧ s = r.expected_seqno then
            if sock.close_requested then
              match all_done_sweep sock1.sessions with
              | none => RecvResult.crash
              | some all_done =>
                if all_done && sock.handler.isSome then
                  RecvResult.closed (hres.2 ++ [Action.EmitClosed])
                else RecvResult.ok { sock1 with sessions := [] } hres.2
            else RecvResult.ok sock1 hres.2
          else RecvResult.ok sock1 hres.2
      else RecvResult.ok sock []

/-- The socket used by the C4 counterexample and witness: one session
with an OPEN receiver expecting seqno 5, recv_handler registered. -/
def c4Socket : SocketEntry :=
  ⟨3, false, some 7, none, [⟨1, none, some ⟨RudpState.OPEN, 5, false⟩⟩]⟩

/-- Counterexample to C4: a DATA datagram whose version field is 99
(≠ 1) is not rejected — the dispatcher never reads the version field —
so a session is modified, an ACK is emitted and the data-received
callback is invoked. -/
theorem c4_counterexample :
    (99 : Nat) ≠ RUDP_VERSION ∧
    receive_step c4Socket 1 ⟨⟨99, RUDP_DATA, 5⟩, 3, [10, 20, 30]⟩ =
      RecvResult.ok ⟨3, false, some 7, none, [⟨1, none, some ⟨RudpState.OPEN, 6, false⟩⟩]⟩
        [Action.SendPkt (ackPacket 6), Action.Deliver [10, 20, 30] 3] := by
  constructor
  · decide
  · decide

/-- C4 (amended): the decode/dispatch step performs no size or version
validation — its behaviour is independent of the version field — and a
datagram with an unknown type value is ignored silently: no session is
created or modified, no ACK is emitted, no callback is invoked. -/
theorem receive_ignores_version_and_unknown_types (sock : SocketEntry) (addr : Nat)
    (v t s : Nat) (plen : Int) (pl : List Nat) :
    (t ≠ RUDP_DATA → t ≠ RUDP_ACK → t ≠ RUDP_SYN → t ≠ RUDP_FIN →
      receive_step sock addr ⟨⟨v, t, s⟩, plen, pl⟩ = RecvResult.ok sock []) ∧
    receive_step sock addr ⟨⟨v, t, s⟩, plen, pl⟩ =
      receive_step sock addr ⟨⟨RUDP_VERSION, t, s⟩, plen, pl⟩ := by
  constructor
  · intro h1 h2 h4 h5
    rw [receive_step]
    cases hf : findSession sock.sessions addr with
    | none => simp [h4]
    | some ks => simp [h1, h2, h4, h5]
  · rfl

/-- Witness for the amended C4: a type-9 datagram on the concrete
socket is dropped with no state change and no actions. -/
theorem receive_unknown_type_witness :
    ((9 : Nat) ≠ RUDP_DATA ∧ (9 : Nat) ≠ RUDP_ACK ∧
      (9 : Nat) ≠ RUDP_SYN ∧ (9 : Nat) ≠ RUDP_FIN) ∧
    receive_step c4Socket 1 ⟨⟨1, 9, 5⟩, 0, []⟩ = RecvResult.ok c4Socket [] :=
  ⟨⟨by decide, by decide, by decide, by decide⟩,
    (receive_ignores_version_and_unknown_types c4Socket 1 1 9 5 0 []).1
      (by decide) (by decide) (by decide) (by decide)⟩

/-! Claim C9 (rudp_sendto) -/

/-- Result of rudp_sendto: updated socket list, side effects and return
code, or a null dereference. -/
inductive SendtoResult where
  | ret (socks : List SocketEntry) (acts : List Action) (code : Int)
  | nullDeref
deriving DecidableEq

/-- The socket-list lookup `while(curr_socket != NULL)` of rudp_sendto
(rudp.c:741-747): the first entry with the given descriptor.  When no
entry matches, the loop exits with `curr_socket == NULL` and the next
line dereferences it (the "Socket not found" return -1 branch at
rudp.c:837-840 is unreachable); callers map `none` to `nullDeref`. -/
def findSocket : List SocketEntry → Int → Option (Nat × SocketEntry)
  | [], _ => none
  | sk :: rest, r =>
    if sk.rsock = r then some (0, sk)
    else (findSocket rest r).map (fun p => (p.1 + 1, p.2))

/-- The ascending first-free-slot search of rudp_sendto
(rudp.c:793-803): `for(i = 0; i < RUDP_WINDOW; i++) ... break`. -/
def firstFreeSlot (w : Arr3 (Option RudpPacket)) : Option Nat :=
  if w.i0 = none then some 0
  else if w.i1 = none then some 1
  else if w.i2 = none then some 2
  else none

/-- rudp_sendto, from rudp.c:716-849.  `rand_seqno` stands for the
`rand()` value used as the initial sequence number of a new session;
`to = none` models a NULL address pointer. -/
def rudp_sendto (socks : List SocketEntry) (rsocket : Int) (data : List Nat) (len : Int)
    (dest : Option Nat) (rand_seqno : Nat) : SendtoResult :=
  if len < 0 ∨ 1000 < len then SendtoResult.ret socks [] (-1)
  else if rsocket < 0 then SendtoResult.ret socks [] (-1)
  else match dest with
  | none => SendtoResult.ret socks [] (-1)
  | some addr =>
    match socks with
    | [] => SendtoResult.ret socks [] (-1)
    | _ :: _ =>
      match findSocket socks rsocket with
      | none => SendtoResult.nullDeref
      | some (k, sock) =>
        let data_item : DataItem := ⟨data, len⟩
        match findSession sock.sessions addr with
        | none =>
          /- Empty session list (rudp.c:764-768) or no session for this
          peer (rudp.c:830-834): create_sender_session appends a new
          session queuing the data, then the SYN for it is sent
          (rudp.c:842-847); the send_packet bookkeeping stores the SYN
          timer argument on the new session. -/
          let snd := create_sender_session rand_seqno [data_item]
          let snd1 := { snd with syn_timeout_arg := some rand_seqno }
          let sock1 := { sock with sessions := sock.sessions ++ [⟨addr, some snd1, none⟩] }
          SendtoResult.ret (socks.set k sock1) [Action.SendPkt (synPacket rand_seqno)] 0
        | some (j, sess) =>
          match sess.sender with
          | none =>
            /- rudp.c:778-786: the peer has a session without a sender
            half.  create_sender_session appends a second session for
            the peer and the SYN is sent inline, but the send_packet
            timer bookkeeping (rudp.c:986-1016) walks the session list,
            finds the original sender-less session first and writes
            through its NULL sender pointer.  (The SYN datagram itself
            goes out before the crash.) -/
            SendtoResult.nullDeref
          | some snd =>
            let enqueue : SenderSession :=
              { snd with data_queue := snd.data_queue ++ [data_item] }
            if snd.status = RudpState.OPEN ∧ snd.data_queue = [] then
              match firstFreeSlot snd.sliding_window with
              | some i =>
                /- Window slot free: send one DATA immediately
                (rudp.c:791-804); send_packet arms the slot timer. -/
                let seqno := (snd.seqno + 1) % U32MOD
                let datap := create_rudp_packet RUDP_DATA seqno len data
                let snd1 :=
                  { snd with
                    seqno := seqno
                    sliding_window := snd.sliding_window.set i (some datap)
                    retransmission_attempts := snd.retransmission_attempts.set i 0
                    data_timeout_arg := snd.data_timeout_arg.set i (some seqno) }
                let sock1 :=
                  { sock with sessions := sock.sessions.set j { sess with sender := some snd1 } }
                SendtoResult.ret (socks.set k sock1) [Action.SendPkt datap] 0
              | none =>
                /- Window full: queue the item (rudp.c:806-819). -/
                let sock1 :=
                  { sock with sessions := sock.sessions.set j { sess with sender := some enqueue } }
                SendtoResult.ret (socks.set k sock1) [] 0
            else
              /- Not OPEN, or data already queued: queue the item. -/
              let sock1 :=
                { sock with sessions := sock.sessions.set j { sess with sender := some enqueue } }
              SendtoResult.ret (socks.set k sock1) [] 0

/-- C9 (code bug): rudp_sendto called with a valid payload and address
but a handle naming no socket, while the socket list is non-empty,
reaches the null dereference of the exited lookup pointer instead of
returning -1 (the "Socket not found" branch of rudp.c:837-840 is
unreachable). -/
theorem c9_unknown_handle_crash :
    rudp_sendto [⟨3, false, none, none, []⟩] 5 [1, 2] 2 (some 9) 42 =
      SendtoResult.nullDeref := by
  decide

/-! Claim C10 (handler registration) -/

/-- The socket walk shared by rudp_recvfrom_handler and
rudp_event_handler (rudp.c:672-684, 698-711), specialised to the
recv_handler field: replace the handler of the first matching socket
and return 0, or return -1 when no socket matches.  (With an empty
socket list the source dereferences the NULL list head; the claims
never reach that case, and it is modelled as the not-found result.) -/
def setRecvHandler : List SocketEntry → Int → Nat → List SocketEntry × Int
  | [], _, _ => ([], -1)
  | sk :: rest, r, h =>
    if sk.rsock = r then ({ sk with recv_handler := some h } :: rest, 0)
    else
      let res := setRecvHandler rest r h
      (sk :: res.1, res.2)

/-- The same walk specialised to the event-handler field. -/
def setEventHandler : List SocketEntry → Int → Nat → List SocketEntry × Int
  | [], _, _ => ([], -1)
  | sk :: rest, r, h =>
    if sk.rsock = r then ({ sk with handler := some h } :: rest, 0)
    else
      let res := setEventHandler rest r h
      (sk :: res.1, res.2)

/-- rudp_recvfrom_handler, from rudp.c:664-685: a NULL handler fails
with -1 before touching any socket. -/
def rudp_recvfrom_handler (socks : List SocketEntry) (rsocket : Int)
    (handler : Option Nat) : List SocketEntry × Int :=
  match handler with
  | none => (socks, -1)
  | some h => setRecvHandler socks rsocket h

/-- rudp_event_handler, from rudp.c:688-712. -/
def rudp_event_handler (socks : List SocketEntry) (rsocket : Int)
    (handler : Option Nat) : List SocketEntry × Int :=
  match handler with
  | none => (socks, -1)
  | some h => setEventHandler socks rsocket h

theorem setRecvHandler_found (r : Int) (h : Nat) :
    ∀ socks : List SocketEntry, (∃ sk ∈ socks, sk.rsock = r) →
      (setRecvHandler socks r h).2 = 0 ∧
      ∃ i sk, socks[i]? = some sk ∧ sk.rsock = r ∧
        (setRecvHandler socks r h).1 = socks.set i { sk with recv_handler := some h } := by
  intro socks
  induction socks with
  | nil => rintro ⟨sk, hmem, -⟩; exact absurd hmem (List.not_mem_nil sk)
  | cons sk0 rest ih =>
    rintro ⟨sk, hmem, heq⟩
    by_cases h0 : sk0.rsock = r
    · refine ⟨by simp [setRecvHandler, h0], 0, sk0, by simp, h0, ?_⟩
      simp [setRecvHandler, h0]
    · have hsk : sk ∈ rest := by
        rcases List.mem_cons.mp hmem with h1 | h1
        · exact absurd (h1 ▸ heq) h0
        · exact h1
      obtain ⟨hcode, i, sk1, hget, hr, hset⟩ := ih ⟨sk, hsk, heq⟩
      refine ⟨by simp [setRecvHandler, h0, hcode], i + 1, sk1, by simpa using hget, hr, ?_⟩
      simp [setRecvHandler, h0, hset]

theorem setEventHandler_found (r : Int) (h : Nat) :
    ∀ socks : List SocketEntry, (∃ sk ∈ socks, sk.rsock = r) →
      (setEventHandler socks r h).2 = 0 ∧
      ∃ i sk, socks[i]? = some sk ∧ sk.rsock = r ∧
        (setEventHandler socks r h).1 = socks.set i { sk with handler := some h } := by
  intro socks
  induction socks with
  | nil => rintro ⟨sk, hmem, -⟩; exact absurd hmem (List.not_mem_nil sk)
  | cons sk0 rest ih =>
    rintro ⟨sk, hmem, heq⟩
    by_cases h0 : sk0.rsock = r
    · refine ⟨by simp [setEventHandler, h0], 0, sk0, by simp, h0, ?_⟩
      simp [setEventHandler, h0]
    · have hsk : sk ∈ rest := by
        rcases List.mem_cons.mp hmem with h1 | h1
        · exact absurd (h1 ▸ heq) h0
        · exact h1
      obtain ⟨hcode, i, sk1, hget, hr, hset⟩ := ih ⟨sk, hsk, heq⟩
      refine ⟨by simp [setEventHandler, h0, hcode], i + 1, sk1, by simpa using hget, hr, ?_⟩
      simp [setEventHandler, h0, hset]

/-- C10: calling rudp_recvfrom_handler or rudp_event_handler with a
NULL function pointer returns -1 and leaves every socket — in
particular its previously registered handler — unchanged; calling
either with a non-NULL pointer when some socket matches the handle
returns 0 and replaces exactly the corresponding handler field of
that socket
field (the first matching entry), leaving all other entries intact. -/
theorem handler_registration (socks : List SocketEntry) (rsocket : Int) (h : Nat) :
    (rudp_recvfrom_handler socks rsocket none = (socks, -1) ∧
      rudp_event_handler socks rsocket none = (socks, -1)) ∧
    ((∃ sk ∈ socks, sk.rsock = rsocket) →
      ((rudp_recvfrom_handler socks rsocket (some h)).2 = 0 ∧
        ∃ i sk, socks[i]? = some sk ∧ sk.rsock = rsocket ∧
          (rudp_recvfrom_handler socks rsocket (some h)).1 =
            socks.set i { sk with recv_handler := some h }) ∧
      ((rudp_event_handler socks rsocket (some h)).2 = 0 ∧
        ∃ i sk, socks[i]? = some sk ∧ sk.rsock = rsocket ∧
          (rudp_event_handler socks rsocket (some h)).1 =
            socks.set i { sk with handler := some h })) := by
  refine ⟨⟨rfl, rfl⟩, fun hex => ⟨?_, ?_⟩⟩
  · exact setRecvHandler_found rsocket h socks hex
  · exact setEventHandler_found rsocket h socks hex

/-- Witness for C10 on a concrete two-socket list, registering handler
token 9 on the socket with descriptor 4. -/
theorem handler_registration_witness :
    (∃ sk ∈ [(⟨3, false, none, none, []⟩ : SocketEntry), ⟨4, false, some 1, some 2, []⟩],
      sk.rsock = 4) ∧
    (rudp_recvfrom_handler [⟨3, false, none, none, []⟩, ⟨4, false, some 1, some 2, []⟩]
        4 (some 9)).2 = 0 ∧
    (rudp_event_handler [⟨3, false, none, none, []⟩, ⟨4, false, some 1, some 2, []⟩]
        4 (some 9)).2 = 0 :=
  ⟨by decide,
    ((handler_registration [⟨3, false, none, none, []⟩, ⟨4, false, some 1, some 2, []⟩]
        4 9).2 (by decide)).1.1,
    ((handler_registration [⟨3, false, none, none, []⟩, ⟨4, false, some 1, some 2, []⟩]
        4 9).2 (by decide)).2.1⟩

end Rudp
